import Mathlib

/-!
Shallow embedding of the character-counting core of the firelynx
`char_counter` WebAssembly example
(`examples/wasm/rust/char_counter/src/lib.rs` together with the generated
plugin glue in `pdk.rs`).

Modelling conventions:

* Rust strings are modelled as Lean `String`; iterating a Rust `&str`
  with `.chars()` visits Unicode scalar values, exactly the elements of
  `String.data` in Lean.
* `str::to_lowercase` is modelled by `strToLowercase` below with the
  structure of the Rust standard library implementation: every scalar
  other than the Greek capital sigma is lowercased by the context-free,
  possibly one-to-many mapping `charLower` (so `'İ'` expands to the two
  scalars `i` plus combining dot above), and a capital sigma lowercases
  to final `ς` or medial `σ` depending on the surrounding scalars, via
  the Final_Sigma condition of the source (`map_uppercase_sigma`).  The
  tables `charLower`, `isCased` and `isCaseIgnorable` are the
  restriction of the Unicode tables to the scalars this development
  evaluates (ASCII, `é`, dotted capital `İ` with its decomposition, and
  the Greek block); every other scalar is left unchanged, and every
  image of `charLower` is non-empty, as in the full Unicode table.
* `HashSet<char>` built from the characters of a string, queried with
  `contains`, is modelled as membership in the character list: the two
  agree extensionally, and hash-set iteration order is never observed.
* The `usize` to `i32` cast on the final count is modelled as the exact
  inclusion of `Nat` into `Int`; a wasm32 guest cannot materialise a
  body of `2 ^ 31` or more scalar values, so the cast never wraps on a
  representable input.
* `serde_json` deserialisation of the typed input structs is modelled
  at the level of JSON values (`JValue` below) by `decodeInputData`,
  following serde semantics: an `Option` field accepts a missing key or
  an explicit `null` as `none`, any other field with the wrong type is
  a decode failure, and unknown keys are ignored.
-/

/-- Mirrors struct `RequestData` of lib.rs: of the go-polyscript request
envelope only the `Body` field is consumed (the rest are commented out in
the source). -/
structure RequestData where
  body : String
  deriving Repr, DecidableEq

/-- Mirrors struct `StaticData` of lib.rs: both fields are `Option`al. -/
structure StaticData where
  search_characters : Option String
  case_sensitive : Option Bool
  deriving Repr, DecidableEq

/-- Mirrors struct `InputData` of lib.rs: a required `request` and an
optional `static_data`. -/
structure InputData where
  request : RequestData
  static_data : Option StaticData
  deriving Repr, DecidableEq

/-- Mirrors struct `CharacterReport` of pdk.rs (`types` module): the
count (an `i32` in the source, here an `Int`) and the character set the
count was taken against. -/
structure CharacterReport where
  count : Int
  characters : String
  deriving Repr, DecidableEq

/-- The context-free lowercase mapping of one scalar, modelling
`char::to_lowercase` (which yields a possibly multi-scalar string):
ASCII uppercase maps to ASCII lowercase, the dotted capital `İ` (U+0130)
expands to `i` followed by combining dot above (U+0307), the Greek
capitals Α..Ω map down by 32 (`Σ` to medial `σ`, the context-sensitive
final form being chosen by `strToLowercase`), and every scalar outside
these evaluated ranges is left unchanged.  Every image is non-empty,
as in the full Unicode table. -/
def charLower (c : Char) : List Char :=
  if 'A' ≤ c ∧ c ≤ 'Z' then [Char.ofNat (c.toNat + 32)]
  else if c.toNat = 0x130 then ['i', Char.ofNat 0x307]
  else if 0x391 ≤ c.toNat ∧ c.toNat ≤ 0x3A9 ∧ c.toNat ≠ 0x3A2 then [Char.ofNat (c.toNat + 32)]
  else [c]

/-- The Unicode `Cased` property, restricted to the scalars this
development evaluates: ASCII letters, the Greek letter block, and the
dotted capital `İ`. -/
def isCased (c : Char) : Bool :=
  decide ((0x41 ≤ c.toNat ∧ c.toNat ≤ 0x5A) ∨ (0x61 ≤ c.toNat ∧ c.toNat ≤ 0x7A) ∨
    (0x391 ≤ c.toNat ∧ c.toNat ≤ 0x3C9 ∧ c.toNat ≠ 0x3A2) ∨ c.toNat = 0x130)

/-- The Unicode `Case_Ignorable` property, restricted to the scalars
this development evaluates: only the combining dot above. -/
def isCaseIgnorable (c : Char) : Bool :=
  decide (c.toNat = 0x307)

/-- The helper of `map_uppercase_sigma` in the standard library: skip
case-ignorable scalars, then ask whether the next scalar is cased. -/
def caseIgnorableThenCased (l : List Char) : Bool :=
  match l.dropWhile isCaseIgnorable with
  | [] => false
  | c :: _ => isCased c

/-- The loop of `str::to_lowercase`: scalars are lowercased in order by
`charLower`, except that a capital sigma becomes final `ς` when the
Final_Sigma condition holds of the scalars before it (`rev`, in reverse
order) and after it, and medial `σ` otherwise, exactly as in
`map_uppercase_sigma` of the standard library. -/
def toLowercaseGo : List Char → List Char → List Char
  | _, [] => []
  | rev, c :: rest =>
    (if c = 'Σ' then
      if caseIgnorableThenCased rev && !(caseIgnorableThenCased rest) then ['ς'] else ['σ']
     else charLower c) ++ toLowercaseGo (c :: rev) rest

/-- Mirrors `str::to_lowercase`. -/
def strToLowercase (s : String) : String :=
  String.mk (toLowercaseGo [] s.data)

/-- Resolution of the effective match set, mirroring lib.rs lines 72-77:
`input_data.static_data.as_ref().and_then(|sd| sd.search_characters.as_ref())`
with default `"aeiouAEIOU"`. -/
def matchingChars (input : InputData) : String :=
  (input.static_data.bind StaticData.search_characters).getD "aeiouAEIOU"

/-- Resolution of the case-sensitivity flag, mirroring lib.rs lines 79-82:
`input_data.static_data.as_ref().and_then(|sd| sd.case_sensitive)` with
default `false`. -/
def caseSensitiveFlag (input : InputData) : Bool :=
  (input.static_data.bind StaticData.case_sensitive).getD false

/-- Mirrors the counting loop of lib.rs lines 102-107: build the set of
target characters and count the scalars of the search text that belong
to it (`search_text.chars().filter(|c| target_set.contains(c)).count()`). -/
def countMatching (search_text : String) (target_chars : String) : Nat :=
  (search_text.data.filter (fun c => decide (c ∈ target_chars.data))).length

/-- The `search_text` binding of lib.rs lines 90-94: the body unchanged
when case-sensitive, else lowercased. -/
def searchTextOf (input : InputData) : String :=
  if caseSensitiveFlag input then input.request.body
  else strToLowercase input.request.body

/-- The `target_chars` binding of lib.rs lines 96-100: the match set
unchanged when case-sensitive, else lowercased. -/
def targetCharsOf (input : InputData) : String :=
  if caseSensitiveFlag input then matchingChars input
  else strToLowercase (matchingChars input)

/-- Mirrors `count_characters` of lib.rs (lines 67-113) after JSON
deserialisation has produced an `InputData`: resolve the configuration,
reject an empty match set, normalise body and match set according to the
case policy, count, and assemble the report. -/
def count_characters (input : InputData) : Except String CharacterReport :=
  if matchingChars input = "" then
    Except.error "Character set cannot be empty"
  else
    Except.ok
      { count := (countMatching (searchTextOf input) (targetCharsOf input) : Int)
        characters := matchingChars input }

/-- JSON values, the input domain of the deserialisation step performed
by `serde_json::from_str` in lib.rs line 68. -/
inductive JValue where
  | null
  | bool (b : Bool)
  | num (n : Int)
  | str (s : String)
  | arr (elems : List JValue)
  | obj (fields : List (String × JValue))

/-- First field with the given key in a JSON object, the lookup
underlying serde struct deserialisation. -/
def lookupField : List (String × JValue) → String → Option JValue
  | [], _ => none
  | (k, v) :: rest, key => if k = key then some v else lookupField rest key

/-- Serde decoding of a required `String` field value. -/
def decodeStringVal : JValue → Option String
  | JValue.str s => some s
  | _ => none

/-- Serde decoding of an `Option<String>` struct field: a missing key or
an explicit null is `none`, a string is `some`, anything else fails. -/
def decodeOptStringField : Option JValue → Option (Option String)
  | none => some none
  | some JValue.null => some none
  | some (JValue.str s) => some (some s)
  | some _ => none

/-- Serde decoding of an `Option<bool>` struct field. -/
def decodeOptBoolField : Option JValue → Option (Option Bool)
  | none => some none
  | some JValue.null => some none
  | some (JValue.bool b) => some (some b)
  | some _ => none

/-- Serde decoding of `StaticData` from a JSON value. -/
def decodeStaticData : JValue → Option StaticData
  | JValue.obj fields => do
    let sc ← decodeOptStringField (lookupField fields "search_characters")
    let cs ← decodeOptBoolField (lookupField fields "case_sensitive")
    some { search_characters := sc, case_sensitive := cs }
  | _ => none

/-- Serde decoding of the `Option<StaticData>` field `static_data`. -/
def decodeOptStaticField : Option JValue → Option (Option StaticData)
  | none => some none
  | some JValue.null => some none
  | some j => (decodeStaticData j).map some

/-- Serde decoding of `RequestData` from a JSON value: the `Body` key
must be present and hold a string; other keys are ignored. -/
def decodeRequestData : JValue → Option RequestData
  | JValue.obj fields => do
    let bj ← lookupField fields "Body"
    let b ← decodeStringVal bj
    some { body := b }
  | _ => none

/-- Serde decoding of `InputData` from a JSON value: a required
`request` object and an optional `static_data` object. -/
def decodeInputData : JValue → Option InputData
  | JValue.obj fields => do
    let rj ← lookupField fields "request"
    let req ← decodeRequestData rj
    let sd ← decodeOptStaticField (lookupField fields "static_data")
    some { request := req, static_data := sd }
  | _ => none

/-- Mirrors the exported entry point `CountCharacters` of pdk.rs at the
JSON-value level: deserialise the input (a failure yields the
`Invalid JSON input` error of lib.rs lines 68-70) and run
`count_characters`. -/
def CountCharacters (j : JValue) : Except String CharacterReport :=
  match decodeInputData j with
  | none => Except.error "Invalid JSON input"
  | some input => count_characters input

theorem count_characters_of_ne (input : InputData) (h : matchingChars input ≠ "") :
    count_characters input =
      Except.ok
        ⟨(countMatching (searchTextOf input) (targetCharsOf input) : Int),
          matchingChars input⟩ := by
  unfold count_characters
  rw [if_neg h]

theorem count_characters_of_empty (input : InputData) (h : matchingChars input = "") :
    count_characters input = Except.error "Character set cannot be empty" := by
  unfold count_characters
  rw [if_pos h]

theorem count_characters_ok_inv (input : InputData) (r : CharacterReport)
    (h : count_characters input = Except.ok r) :
    matchingChars input ≠ "" ∧
      r = ⟨(countMatching (searchTextOf input) (targetCharsOf input) : Int),
            matchingChars input⟩ := by
  by_cases hm : matchingChars input = ""
  · rw [count_characters_of_empty input hm] at h
    exact absurd h (by simp)
  · rw [count_characters_of_ne input hm] at h
    exact ⟨hm, (Except.ok.inj h).symm⟩

theorem count_characters_error_iff (input : InputData) :
    (∃ e, count_characters input = Except.error e) ↔ matchingChars input = "" := by
  by_cases hm : matchingChars input = ""
  · simp [count_characters_of_empty input hm, hm]
  · simp [count_characters_of_ne input hm, hm]

theorem countMatching_le_length (st tc : String) :
    countMatching st tc ≤ st.data.length :=
  List.length_filter_le _ _

theorem charLower_ne_nil (c : Char) : charLower c ≠ [] := by
  unfold charLower
  split
  · simp
  · split
    · simp
    · split <;> simp

theorem toLowercaseGo_of_not_mem (l : List Char) (h : 'Σ' ∉ l) :
    ∀ rev, toLowercaseGo rev l = (l.map charLower).flatten := by
  induction l with
  | nil => intro rev; rfl
  | cons c rest ih =>
    intro rev
    have hc : ¬c = 'Σ' := fun hcon => h (hcon ▸ List.mem_cons_self c rest)
    have hrest : 'Σ' ∉ rest := fun hm => h (List.mem_cons_of_mem c hm)
    simp [toLowercaseGo, hc, ih hrest]

theorem strToLowercase_data_of_not_mem (s : String) (h : 'Σ' ∉ s.data) :
    (strToLowercase s).data = (s.data.map charLower).flatten :=
  toLowercaseGo_of_not_mem s.data h []

theorem countP_le_countP_flatten (p q : Char → Bool) (f : Char → List Char)
    (l : List Char) (h : ∀ c ∈ l, p c = true → 1 ≤ List.countP q (f c)) :
    List.countP p l ≤ List.countP q ((l.map f).flatten) := by
  induction l with
  | nil => simp
  | cons c rest ih =>
    have h1 := ih (fun d hd => h d (List.mem_cons_of_mem c hd))
    simp only [List.map_cons, List.flatten_cons, List.countP_append, List.countP_cons]
    by_cases hp : p c = true
    · have h2 := h c (List.mem_cons_self c rest) hp
      simp only [hp, if_true]
      omega
    · simp only [hp, if_false]
      simp only [Bool.not_eq_true] at hp
      simp only [hp, Bool.false_eq_true, if_false]
      omega

theorem countMatching_congr (st : String) {t1 t2 : String}
    (h : ∀ c, c ∈ t1.data ↔ c ∈ t2.data) :
    countMatching st t1 = countMatching st t2 := by
  unfold countMatching
  rw [← List.countP_eq_length_filter, ← List.countP_eq_length_filter]
  apply List.countP_congr
  intro c _
  simp [h c]

/-- Counterexample to C1: lowercasing can expand a scalar, so the count
can exceed the number of scalar values of the body.  The one-scalar body
`İ` (U+0130), counted case-insensitively against the two-scalar match
set `i` plus combining dot above, reports count 2. -/
theorem C1_unicode_expansion_counterexample :
    count_characters ⟨⟨"İ"⟩, some ⟨some (String.mk ['i', Char.ofNat 0x307]), none⟩⟩
        = Except.ok ⟨2, String.mk ['i', Char.ofNat 0x307]⟩ ∧
      ("İ" : String).data.length = 1 ∧
      ¬((2 : Int) ≤ (1 : Int)) :=
  ⟨rfl, rfl, by decide⟩

/-- C1 amended: the count is non-negative and never exceeds the number
of Unicode scalar values of the normalized search text; since the
normalized search text is the body itself whenever counting is
case-sensitive, the originally claimed bound against the body's scalar
count holds in that mode (case-insensitive lowercasing can expand
scalars, so there the bound is against the lowercased body). -/
theorem C1_amended_bound_on_search_text (input : InputData) (r : CharacterReport)
    (h : count_characters input = Except.ok r) :
    0 ≤ r.count ∧ r.count ≤ ((searchTextOf input).data.length : Int) ∧
      (caseSensitiveFlag input = true →
        r.count ≤ (input.request.body.data.length : Int)) := by
  obtain ⟨_, hr⟩ := count_characters_ok_inv input r h
  subst hr
  refine ⟨Int.ofNat_nonneg _, ?_, ?_⟩
  · show (countMatching (searchTextOf input) (targetCharsOf input) : Int)
        ≤ ((searchTextOf input).data.length : Int)
    exact_mod_cast countMatching_le_length _ _
  · intro hcs
    have hst : searchTextOf input = input.request.body := by
      simp [searchTextOf, hcs]
    show (countMatching (searchTextOf input) (targetCharsOf input) : Int)
        ≤ (input.request.body.data.length : Int)
    rw [← hst]
    exact_mod_cast countMatching_le_length _ _

/-- Witness for C1 amended at body "Hello World" with the default
configuration. -/
theorem C1_amended_bound_witness :
    0 ≤ (⟨3, "aeiouAEIOU"⟩ : CharacterReport).count ∧
      (⟨3, "aeiouAEIOU"⟩ : CharacterReport).count
        ≤ ((searchTextOf ⟨⟨"Hello World"⟩, none⟩).data.length : Int) ∧
      (caseSensitiveFlag ⟨⟨"Hello World"⟩, none⟩ = true →
        (⟨3, "aeiouAEIOU"⟩ : CharacterReport).count
          ≤ (("Hello World" : String).data.length : Int)) :=
  C1_amended_bound_on_search_text ⟨⟨"Hello World"⟩, none⟩ ⟨3, "aeiouAEIOU"⟩ rfl

/-- Counterexample to C3: the context-sensitive final-sigma rule can
lose a match under case folding.  For body `ΑΣ` and match set `Σx`, the
case-sensitive count is 1 (the capital sigma matches), but
case-insensitively the body's word-final sigma lowers to `ς` while the
set's non-final sigma lowers to `σ`, giving count 0. -/
theorem C3_final_sigma_counterexample :
    count_characters ⟨⟨"ΑΣ"⟩, some ⟨some "Σx", some true⟩⟩ = Except.ok ⟨1, "Σx"⟩ ∧
      count_characters ⟨⟨"ΑΣ"⟩, some ⟨some "Σx", some false⟩⟩ = Except.ok ⟨0, "Σx"⟩ ∧
      ¬((⟨1, "Σx"⟩ : CharacterReport).count ≤ (⟨0, "Σx"⟩ : CharacterReport).count) :=
  ⟨rfl, rfl, by decide⟩

/-- C3 amended: for every body and match set in which the capital sigma
`Σ` does not occur (so the context-sensitive final-sigma rule is never
triggered and lowercasing is scalar-by-scalar), the case-insensitive
count is at least the case-sensitive count: case folding only ever adds
matches, never removes them. -/
theorem C3_amended_no_sigma (body set : String) (rcs rci : CharacterReport)
    (hb : 'Σ' ∉ body.data) (hs : 'Σ' ∉ set.data)
    (h1 : count_characters ⟨⟨body⟩, some ⟨some set, some true⟩⟩ = Except.ok rcs)
    (h2 : count_characters ⟨⟨body⟩, some ⟨some set, some false⟩⟩ = Except.ok rci) :
    rcs.count ≤ rci.count := by
  obtain ⟨_, hr1⟩ := count_characters_ok_inv _ _ h1
  obtain ⟨_, hr2⟩ := count_characters_ok_inv _ _ h2
  subst hr1
  subst hr2
  show (countMatching body set : Int)
      ≤ (countMatching (strToLowercase body) (strToLowercase set) : Int)
  have key : countMatching body set
      ≤ countMatching (strToLowercase body) (strToLowercase set) := by
    unfold countMatching
    rw [← List.countP_eq_length_filter, ← List.countP_eq_length_filter,
      strToLowercase_data_of_not_mem body hb]
    apply countP_le_countP_flatten
    intro c hc hpc
    rw [decide_eq_true_eq] at hpc
    obtain ⟨d, hd⟩ := List.exists_mem_of_ne_nil _ (charLower_ne_nil c)
    have hdq : d ∈ (strToLowercase set).data := by
      rw [strToLowercase_data_of_not_mem set hs]
      exact List.mem_flatten.mpr ⟨charLower c, List.mem_map_of_mem charLower hpc, hd⟩
    have hpos : 0 < List.countP
        (fun e => decide (e ∈ (strToLowercase set).data)) (charLower c) :=
      List.countP_pos_iff.mpr ⟨d, hd, decide_eq_true hdq⟩
    omega
  exact_mod_cast key

/-- Witness for C3 amended at body "Hello WORLD" with match set "elo",
neither containing a capital sigma. -/
theorem C3_amended_no_sigma_witness :
    (⟨4, "elo"⟩ : CharacterReport).count ≤ (⟨6, "elo"⟩ : CharacterReport).count :=
  C3_amended_no_sigma "Hello WORLD" "elo" ⟨4, "elo"⟩ ⟨6, "elo"⟩
    (by decide) (by decide) rfl rfl

/-- C6: on every successful invocation the `characters` field of the
report is the resolved match set in its original casing, never a
case-folded version, regardless of the case policy. -/
theorem C6_characters_echo_original (input : InputData) (r : CharacterReport)
    (h : count_characters input = Except.ok r) :
    r.characters = matchingChars input := by
  obtain ⟨_, hr⟩ := count_characters_ok_inv input r h
  subst hr
  rfl

/-- Witness for C6: a mixed-case supplied set "AbC" is echoed verbatim
even though counting is case-insensitive. -/
theorem C6_characters_echo_original_witness :
    (⟨0, "AbC"⟩ : CharacterReport).characters
      = matchingChars ⟨⟨"Hello"⟩, some ⟨some "AbC", some false⟩⟩ :=
  C6_characters_echo_original ⟨⟨"Hello"⟩, some ⟨some "AbC", some false⟩⟩ ⟨0, "AbC"⟩ rfl

/-- C7: body "Hello WORLD" with match set "elo" yields count 4 when
case-sensitive and count 6 when case-insensitive. -/
theorem C7_hello_world_scenarios :
    count_characters ⟨⟨"Hello WORLD"⟩, some ⟨some "elo", some true⟩⟩
        = Except.ok ⟨4, "elo"⟩ ∧
      count_characters ⟨⟨"Hello WORLD"⟩, some ⟨some "elo", some false⟩⟩
        = Except.ok ⟨6, "elo"⟩ :=
  ⟨rfl, rfl⟩

/-- Counterexample to C2: the source never trims `search_characters`.
An explicitly supplied empty string does not resolve to the vowel set;
it makes the whole call fail.  A whitespace-only string is likewise not
replaced by the vowel set; it is used verbatim as the match set. -/
theorem C2_trimming_counterexample :
    matchingChars ⟨⟨"hello"⟩, some ⟨some "", none⟩⟩ ≠ "aeiouAEIOU" ∧
      count_characters ⟨⟨"hello"⟩, some ⟨some "", none⟩⟩
        = Except.error "Character set cannot be empty" ∧
      matchingChars ⟨⟨"hello"⟩, some ⟨some " ", none⟩⟩ ≠ "aeiouAEIOU" ∧
      count_characters ⟨⟨"hello"⟩, some ⟨some " ", none⟩⟩
        = Except.ok ⟨0, " "⟩ :=
  ⟨by decide, rfl, by decide, rfl⟩

/-- C2 amended: the vowel default applies exactly when the static
configuration or its `searchCharacters` field is absent; a supplied
`searchCharacters` is used verbatim with no trimming, so a supplied
empty string fails with the empty-match-set error and a whitespace-only
string is used as the match set. -/
theorem C2_no_trim_amended (body s : String) (cs : Option Bool) (h : s ≠ "") :
    (∃ r, count_characters ⟨⟨body⟩, none⟩ = Except.ok r ∧ r.characters = "aeiouAEIOU") ∧
      (∃ r, count_characters ⟨⟨body⟩, some ⟨none, cs⟩⟩ = Except.ok r ∧
        r.characters = "aeiouAEIOU") ∧
      (∃ r, count_characters ⟨⟨body⟩, some ⟨some s, cs⟩⟩ = Except.ok r ∧
        r.characters = s) ∧
      count_characters ⟨⟨body⟩, some ⟨some "", cs⟩⟩
        = Except.error "Character set cannot be empty" := by
  refine ⟨⟨_, count_characters_of_ne _ ?_, rfl⟩,
    ⟨_, count_characters_of_ne _ ?_, rfl⟩,
    ⟨_, count_characters_of_ne _ h, rfl⟩,
    count_characters_of_empty _ rfl⟩
  · exact (by decide : ("aeiouAEIOU" : String) ≠ "")
  · exact (by decide : ("aeiouAEIOU" : String) ≠ "")

/-- Witness for C2 amended at body "sample" with a whitespace-only
supplied match set. -/
theorem C2_no_trim_amended_witness :
    (" " : String) ≠ "" ∧
      (∃ r, count_characters ⟨⟨"sample"⟩, some ⟨some " ", none⟩⟩ = Except.ok r ∧
        r.characters = " ") :=
  ⟨by decide, (C2_no_trim_amended "sample" " " none (by decide)).2.2.1⟩

/-- C4: an explicitly supplied empty `search_characters` fails with the
empty-match-set error and is never replaced by a default, while an
absent one (with or without a surrounding static configuration) uses
the vowel default and never fails. -/
theorem C4_empty_explicit_errors_absent_defaults (body : String) (cs : Option Bool) :
    count_characters ⟨⟨body⟩, some ⟨some "", cs⟩⟩
        = Except.error "Character set cannot be empty" ∧
      (∃ r, count_characters ⟨⟨body⟩, none⟩ = Except.ok r ∧
        r.characters = "aeiouAEIOU") ∧
      (∃ r, count_characters ⟨⟨body⟩, some ⟨none, cs⟩⟩ = Except.ok r ∧
        r.characters = "aeiouAEIOU") := by
  refine ⟨count_characters_of_empty _ rfl,
    ⟨_, count_characters_of_ne _ ?_, rfl⟩,
    ⟨_, count_characters_of_ne _ ?_, rfl⟩⟩
  · exact (by decide : ("aeiouAEIOU" : String) ≠ "")
  · exact (by decide : ("aeiouAEIOU" : String) ≠ "")

/-- C5: the entry point yields an error exactly when the input value
does not decode to the expected shape or the resolved match set is
empty; every other input yields a report. -/
theorem C5_error_iff_decode_fails_or_empty_set (j : JValue) :
    (∃ e, CountCharacters j = Except.error e) ↔
      (decodeInputData j = none ∨
        ∃ i, decodeInputData j = some i ∧ matchingChars i = "") := by
  unfold CountCharacters
  cases hd : decodeInputData j with
  | none => simp
  | some i => simp [count_characters_error_iff]

/-- Counterexample to C8: deduplicating the match set is not always
count-neutral, because removing a duplicate capital sigma changes which
sigma is word-final under case-insensitive lowercasing.  The set `ΣΣ`
lowers to `σς` and matches the body `ς` once, but its deduplication `Σ`
lowers to `σ` and matches zero times. -/
theorem C8_sigma_dedup_counterexample :
    String.mk ("ΣΣ" : String).data.dedup = "Σ" ∧
      count_characters ⟨⟨"ς"⟩, some ⟨some "ΣΣ", some false⟩⟩ = Except.ok ⟨1, "ΣΣ"⟩ ∧
      count_characters ⟨⟨"ς"⟩, some ⟨some "Σ", some false⟩⟩ = Except.ok ⟨0, "Σ"⟩ ∧
      ¬((1 : Int) = (0 : Int)) :=
  ⟨rfl, rfl, rfl, by decide⟩

/-- C8 amended: counting iterates over scalar values, so the é of
"café" is one unit matched as a whole scalar ("café" is four scalars
and the match set "é" counts exactly one hit); and duplicate characters
in the supplied match set never change the count when counting is
case-sensitive, or when the set contains no capital sigma (whose
context-sensitive lowercasing is the one way deduplication can alter
the normalized set). -/
theorem C8_scalar_units_and_dedup_no_sigma (body s : String) (cs : Bool)
    (r1 r2 : CharacterReport)
    (hsig : cs = false → 'Σ' ∉ s.data)
    (h1 : count_characters ⟨⟨body⟩, some ⟨some s, some cs⟩⟩ = Except.ok r1)
    (h2 : count_characters ⟨⟨body⟩, some ⟨some (String.mk s.data.dedup), some cs⟩⟩
      = Except.ok r2) :
    r1.count = r2.count ∧
      count_characters ⟨⟨"café"⟩, some ⟨some "é", none⟩⟩ = Except.ok ⟨1, "é"⟩ ∧
      "café".data.length = 4 := by
  obtain ⟨_, hr1⟩ := count_characters_ok_inv _ _ h1
  obtain ⟨_, hr2⟩ := count_characters_ok_inv _ _ h2
  subst hr1
  subst hr2
  refine ⟨?_, rfl, rfl⟩
  cases cs
  · have hs : 'Σ' ∉ s.data := hsig rfl
    have hsd : 'Σ' ∉ s.data.dedup := fun hm => hs (List.mem_dedup.mp hm)
    show (countMatching (strToLowercase body) (strToLowercase s) : Int)
        = (countMatching (strToLowercase body) (strToLowercase (String.mk s.data.dedup)) : Int)
    refine congrArg Int.ofNat (countMatching_congr _ (fun c => ?_))
    rw [strToLowercase_data_of_not_mem s hs,
      strToLowercase_data_of_not_mem (String.mk s.data.dedup) hsd]
    simp only [List.mem_flatten, List.mem_map]
    constructor
    · rintro ⟨l, ⟨a, ha, rfl⟩, hcl⟩
      exact ⟨charLower a, ⟨a, List.mem_dedup.mpr ha, rfl⟩, hcl⟩
    · rintro ⟨l, ⟨a, ha, rfl⟩, hcl⟩
      exact ⟨charLower a, ⟨a, List.mem_dedup.mp ha, rfl⟩, hcl⟩
  · show (countMatching body s : Int) = (countMatching body (String.mk s.data.dedup) : Int)
    exact congrArg Int.ofNat (countMatching_congr _ (fun c => List.mem_dedup.symm))

/-- Witness for C8 amended: counting "banana" against the duplicated
sigma-free set "aa" and against its deduplication "a" gives the same
count 3. -/
theorem C8_scalar_units_and_dedup_witness :
    (⟨3, "aa"⟩ : CharacterReport).count = (⟨3, "a"⟩ : CharacterReport).count ∧
      count_characters ⟨⟨"café"⟩, some ⟨some "é", none⟩⟩ = Except.ok ⟨1, "é"⟩ ∧
      "café".data.length = 4 :=
  C8_scalar_units_and_dedup_no_sigma "banana" "aa" false ⟨3, "aa"⟩ ⟨3, "a"⟩
    (fun _ => by decide) rfl rfl

/-- C9: the computation is deterministic; two invocations of the entry
point on identical input values produce identical outcomes. -/
theorem C9_deterministic (j1 j2 : JValue) (h : j1 = j2) :
    CountCharacters j1 = CountCharacters j2 := by
  rw [h]

/-- Witness for C9 at a concrete request object. -/
theorem C9_deterministic_witness :
    CountCharacters (JValue.obj [("request", JValue.obj [("Body", JValue.str "Hello World")])])
      = CountCharacters (JValue.obj [("request", JValue.obj [("Body", JValue.str "Hello World")])]) :=
  C9_deterministic _ _ rfl

/-- C10: at the JSON interface an explicit null for `search_characters`
or `case_sensitive`, an absent field, and an entirely absent
`static_data` all behave like the defaults and never fail, while a
present, non-null, empty `search_characters` string is the one shape
that triggers the empty-match-set error (a present non-empty string is
accepted). -/
theorem C10_null_absent_equivalence (body s : String) (h : s ≠ "") :
    CountCharacters (JValue.obj [("request", JValue.obj [("Body", JValue.str body)])])
        = count_characters ⟨⟨body⟩, none⟩ ∧
      CountCharacters (JValue.obj [("request", JValue.obj [("Body", JValue.str body)]),
          ("static_data", JValue.null)])
        = count_characters ⟨⟨body⟩, none⟩ ∧
      CountCharacters (JValue.obj [("request", JValue.obj [("Body", JValue.str body)]),
          ("static_data", JValue.obj [])])
        = count_characters ⟨⟨body⟩, none⟩ ∧
      CountCharacters (JValue.obj [("request", JValue.obj [("Body", JValue.str body)]),
          ("static_data", JValue.obj [("search_characters", JValue.null),
            ("case_sensitive", JValue.null)])])
        = count_characters ⟨⟨body⟩, none⟩ ∧
      (∃ r, count_characters ⟨⟨body⟩, none⟩ = Except.ok r ∧ r.characters = "aeiouAEIOU") ∧
      (∃ e, CountCharacters (JValue.obj [("request", JValue.obj [("Body", JValue.str body)]),
          ("static_data", JValue.obj [("search_characters", JValue.str "")])])
        = Except.error e) ∧
      (∃ r, CountCharacters (JValue.obj [("request", JValue.obj [("Body", JValue.str body)]),
          ("static_data", JValue.obj [("search_characters", JValue.str s)])])
        = Except.ok r) := by
  refine ⟨rfl, rfl, rfl, rfl,
    ⟨_, count_characters_of_ne ⟨⟨body⟩, none⟩ (by decide : ("aeiouAEIOU" : String) ≠ ""), rfl⟩,
    ⟨"Character set cannot be empty",
      count_characters_of_empty ⟨⟨body⟩, some ⟨some "", none⟩⟩ rfl⟩,
    ⟨_, count_characters_of_ne ⟨⟨body⟩, some ⟨some s, none⟩⟩ h⟩⟩

/-- Witness for C10 with body "abc" and the supplied non-empty set "z". -/
theorem C10_null_absent_equivalence_witness :
    ("z" : String) ≠ "" ∧
      (∃ r, CountCharacters (JValue.obj [("request", JValue.obj [("Body", JValue.str "abc")]),
          ("static_data", JValue.obj [("search_characters", JValue.str "z")])])
        = Except.ok r) :=
  ⟨by decide, (C10_null_absent_equivalence "abc" "z" (by decide)).2.2.2.2.2.2⟩
